import Mathlib

/-!
Verification of the HumAIne-chatbot profiling/personalization core.

This file gives a shallow embedding, in Lean 4, of the parts of the
repository that the specification's claims are about:

* `src/utils/sentiment_analyzer.py`   — the lexicon sentiment scorer,
* `src/utils/language_complexity.py`  — the ASL/TTR complexity scorer,
* `src/core/prompt_manager.py`        — prompt enrichment,
* `src/core/user_profiler.py`         — the profile data model and the
  three event-update paths (message, feedback, session-end),
* `src/core/cross_session_learner.py` — cross-session pattern analysis.

Embedding conventions:

* Python floats are modelled as `ℚ`.  Every arithmetic operation involved in
  the claims (sums, divisions by counts, min/max clamps, fixed steps of 0.1)
  is exact in ℚ, and the clamp arguments are the same, so the [0,1]-bound and
  averaging claims transfer verbatim.
* Python ints are `Int` (timestamps in milliseconds) or `Nat` (counts).
* Python strings are `String`; tokenization works on `String.data`
  (`List Char`) so that concrete evaluations reduce in the kernel.
  `str.lower`, `\w` and `str.isspace` are modelled at ASCII precision
  (`Char.toLower`, `Char.isAlphanum`, `Char.isWhitespace`); every text a
  claim touches is ASCII.
* Python dict-shaped records whose exact keys matter (the session-history
  entries, whose producer and consumer disagree on a key name) are modelled
  as association lists `List (String × SVal)` with `dict.get` semantics;
  records with a fixed schema (event payloads, the profile) are structures.
* `datetime.utcnow()` is threaded through as an explicit `now : Int`
  (milliseconds).  `timedelta.days` is `Int.fdiv` by 86400000 (floor).
-/

/-- Python `int(q)`: truncation of a rational toward zero. -/
def pyInt (q : ℚ) : Int :=
  if q < 0 then q.ceil else q.floor

/-- `numpy.mean` on a list of rationals (callers in the source guard against
the empty list; ℚ division by zero returns 0 there). -/
def npMean (l : List ℚ) : ℚ :=
  l.sum / (l.length : ℚ)

/-- Python `str.split()` (no argument): split on runs of whitespace,
dropping empty pieces.  The accumulator carries the current word reversed. -/
def pySplitWSAux : List Char → List Char → List (List Char)
  | [], acc => if acc = [] then [] else [acc.reverse]
  | c :: rest, acc =>
    if c.isWhitespace then
      if acc = [] then pySplitWSAux rest [] else acc.reverse :: pySplitWSAux rest []
    else pySplitWSAux rest (c :: acc)

def pySplitWS (s : List Char) : List (List Char) :=
  pySplitWSAux s []

/-- Whether `needle` occurs at the head of `hay`. -/
def startsSeq : List Char → List Char → Bool
  | [], _ => true
  | _ :: _, [] => false
  | a :: ns, b :: hs => a = b && startsSeq ns hs

/-- Python `needle in hay` on strings: substring containment. -/
def containsSeq (needle : List Char) : List Char → Bool
  | [] => startsSeq needle []
  | c :: rest => startsSeq needle (c :: rest) || containsSeq needle rest

/-- Python `str.lower()` at ASCII precision. -/
def pyLower (s : List Char) : List Char :=
  s.map Char.toLower

/-!
## Sentiment analyzer (`src/utils/sentiment_analyzer.py`)

`SentimentAnalyzer.__init__` builds two fixed tables.  The word table below
lists the entries of `self.sentiment_tokens` in source order (all keys are
distinct in the source).  The emoji table lists the entries of
`self.emoji_sentiment` exactly as the *bytes of the source file* have them:
the file stores each emoji as a mojibake character sequence (UTF-8 bytes
re-interpreted), and the program matches those very sequences against the
input text.  Python dict literals keep the first occurrence's position and
the last occurrence's value for duplicate keys; the list below is that
deduplicated dict in iteration order (199 entries).
-/

def sentiment_tokens : List (String × Int) :=
  [("excellent", 5), ("amazing", 5), ("outstanding", 5), ("fantastic", 5), ("brilliant", 5),
   ("wonderful", 4), ("great", 4), ("awesome", 4), ("perfect", 4), ("superb", 4),
   ("good", 3), ("nice", 3), ("fine", 3), ("okay", 2), ("alright", 2),
   ("love", 5), ("adore", 5), ("enjoy", 4), ("like", 3), ("appreciate", 4),
   ("helpful", 4), ("useful", 4), ("beneficial", 4), ("valuable", 4),
   ("excited", 4), ("happy", 4), ("pleased", 4), ("satisfied", 3),
   ("impressed", 4), ("surprised", 3), ("interested", 3),
   ("terrible", -5), ("awful", -5), ("horrible", -5), ("dreadful", -5), ("atrocious", -5),
   ("bad", -3), ("poor", -3), ("worse", -4), ("worst", -5),
   ("hate", -5), ("despise", -5), ("loathe", -5), ("dislike", -3), ("disappointed", -3),
   ("frustrated", -3), ("angry", -4), ("annoyed", -3), ("irritated", -3),
   ("confused", -2), ("lost", -2), ("unsure", -2), ("uncertain", -2),
   ("useless", -4), ("pointless", -4), ("worthless", -4), ("meaningless", -4),
   ("boring", -3), ("tedious", -3), ("monotonous", -3), ("repetitive", -2),
   ("difficult", -2), ("hard", -2), ("challenging", -1), ("complex", -1),
   ("maybe", 0), ("perhaps", 0), ("possibly", 0), ("might", 0), ("could", 0),
   ("think", 0), ("believe", 0), ("suppose", 0), ("guess", 0),
   ("question", 0), ("ask", 0), ("wonder", 0), ("curious", 0),
   ("explain", 0), ("describe", 0), ("tell", 0), ("show", 0),
   ("understand", 0), ("learn", 0), ("know", 0), ("see", 0)]

def emoji_sentiment : List (String × Int) :=
  [("ðŸ˜€", 4), ("ðŸ˜ƒ", 4), ("ðŸ˜„", 4), ("ðŸ˜", 0), ("ðŸ˜†", 4), ("ðŸ˜…", 3),
   ("ðŸ˜‚", 4), ("ðŸ¤£", 4), ("ðŸ˜Š", 4), ("ðŸ˜‡", 4), ("ðŸ™‚", 3), ("ðŸ™ƒ", 2),
   ("ðŸ˜‰", 3), ("ðŸ˜Œ", 3), ("ðŸ¥°", 5), ("ðŸ˜˜", 4), ("ðŸ˜—", 3), ("ðŸ˜™", 3),
   ("ðŸ˜š", 4), ("ðŸ˜‹", 3), ("ðŸ˜›", 2), ("ðŸ˜œ", 2), ("ðŸ¤ª", 2), ("ðŸ¤¨", 0),
   ("ðŸ§", 0), ("ðŸ¤“", 1), ("ðŸ˜Ž", 3), ("ðŸ¤©", 4), ("ðŸ¥³", 4), ("ðŸ˜’", -2),
   ("ðŸ˜ž", -3), ("ðŸ˜”", -3), ("ðŸ˜Ÿ", -2), ("ðŸ˜•", -2), ("ðŸ™", -2), ("â˜¹ï¸", -3),
   ("ðŸ˜£", -3), ("ðŸ˜–", -3), ("ðŸ˜«", -3), ("ðŸ˜©", -3), ("ðŸ¥º", -1), ("ðŸ˜¢", -3),
   ("ðŸ˜­", -4), ("ðŸ˜¤", -2), ("ðŸ˜ ", -3), ("ðŸ˜¡", -4), ("ðŸ¤¬", -5), ("ðŸ¤¯", -2),
   ("ðŸ˜³", -1), ("ðŸ¥µ", -2), ("ðŸ¥¶", -2), ("ðŸ˜±", -3), ("ðŸ˜¨", -3), ("ðŸ˜°", -3),
   ("ðŸ˜¥", -2), ("ðŸ˜“", -2), ("ðŸ¤—", 3), ("ðŸ¤”", 0), ("ðŸ¤­", 1), ("ðŸ¤«", 0),
   ("ðŸ¤¥", -3), ("ðŸ˜¶", 0), ("ðŸ˜‘", 0), ("ðŸ˜¯", 0), ("ðŸ˜¦", -1), ("ðŸ˜§", -2),
   ("ðŸ˜®", 0), ("ðŸ˜²", 0), ("ðŸ˜´", -1), ("ðŸ¤¤", -1), ("ðŸ˜ª", -1), ("ðŸ˜µ", -2),
   ("ðŸ¤", 0), ("ðŸ¥´", -1), ("ðŸ¤¢", -4), ("ðŸ¤®", -5), ("ðŸ¤§", -2), ("ðŸ˜·", -1),
   ("ðŸ¤’", -2), ("ðŸ¤•", -2), ("ðŸ¤‘", -2), ("ðŸ¤ ", 2), ("ðŸ˜ˆ", -1), ("ðŸ‘¿", -3),
   ("ðŸ‘¹", -3), ("ðŸ‘º", -3), ("ðŸ’€", -2), ("ðŸ‘»", 1), ("ðŸ‘½", 0), ("ðŸ¤–", 0),
   ("ðŸ˜º", 4), ("ðŸ˜¸", 4), ("ðŸ˜¹", 4), ("ðŸ˜»", 5), ("ðŸ˜¼", 1), ("ðŸ˜½", 3),
   ("ðŸ™€", -2), ("ðŸ˜¿", -3), ("ðŸ˜¾", -3), ("ðŸ™ˆ", 1), ("ðŸ™‰", 0), ("ðŸ™Š", 0),
   ("ðŸ’Œ", 3), ("ðŸ’˜", 4), ("ðŸ’", 4), ("ðŸ’–", 4), ("ðŸ’—", 3), ("ðŸ’™", 2),
   ("ðŸ’š", 2), ("ðŸ§¡", 2), ("ðŸ’›", 2), ("ðŸ’œ", 2), ("ðŸ–¤", -1), ("ðŸ’”", -4),
   ("â£ï¸", 3), ("ðŸ’•", 4), ("ðŸ’ž", 4), ("ðŸ’“", 3), ("ðŸ’Ÿ", 3), ("â˜®ï¸", 2),
   ("âœï¸", 0), ("â˜ªï¸", 0), ("ðŸ•‰ï¸", 0), ("â˜¸ï¸", 0), ("âœ¡ï¸", 0), ("ðŸ”¯", 0),
   ("ðŸ•Ž", 0), ("â˜¯ï¸", 0), ("â˜¦ï¸", 0), ("ðŸ›", 0), ("â›Ž", 0), ("â™ˆ", 0),
   ("â™‰", 0), ("â™Š", 0), ("â™‹", 0), ("â™Œ", 0), ("â™", 0), ("â™Ž", 0),
   ("â™‘", 0), ("â™’", 0), ("â™“", 0), ("ðŸ†”", 0), ("âš›ï¸", 0), ("ðŸ‰‘", 0),
   ("â˜¢ï¸", -3), ("â˜£ï¸", -2), ("ðŸ“´", -1), ("ðŸ“³", 0), ("ðŸˆ¶", 0), ("ðŸˆš", 0),
   ("ðŸˆ¸", 0), ("ðŸˆº", 0), ("ðŸˆ·ï¸", 0), ("âœ´ï¸", 0), ("ðŸ†š", 0), ("ðŸ’®", 0),
   ("ðŸ‰", 0), ("ãŠ™ï¸", 0), ("ãŠ—ï¸", 0), ("ðŸˆ´", 0), ("ðŸˆµ", 0), ("ðŸˆ¹", 0),
   ("ðŸˆ²", 0), ("ðŸ…°ï¸", 0), ("ðŸ…±ï¸", 0), ("ðŸ†Ž", 0), ("ðŸ†‘", 0), ("ðŸ…¾ï¸", 0),
   ("ðŸ†˜", -3), ("âŒ", -3), ("â­•", 0), ("ðŸ›‘", -2), ("ðŸ›¡ï¸", 0), ("ðŸˆ¯", 0),
   ("ðŸ’¯", 3), ("ðŸ’¢", -3), ("â™¨ï¸", 0), ("ðŸ’ ", 0), ("ðŸ”°", 0), ("ðŸ”±", 0),
   ("âœ…", 3), ("â˜‘ï¸", 2), ("ðŸ”˜", 0), ("ðŸ”´", -1), ("ðŸŸ ", 0), ("ðŸŸ¡", 0),
   ("ðŸŸ¢", 1), ("ðŸ”µ", 0), ("ðŸŸ£", 0), ("âš«", -1), ("âšª", 0), ("ðŸŸ¤", 0),
   ("ðŸ”º", 0), ("ðŸ”»", 0), ("ðŸ”¶", 0), ("ðŸ”·", 0), ("ðŸ”¸", 0), ("ðŸ”¹", 0),
   ("ðŸ’Ž", 3)]

/-- `re.sub(r'[^\w]', '', word)`: keep word characters only (ASCII precision:
letters, digits, underscore). -/
def cleanWord (w : List Char) : List Char :=
  w.filter (fun c => c.isAlphanum || c = '_')

/-- Look a cleaned token up in `sentiment_tokens` (`clean_word in self.sentiment_tokens`). -/
def lookupToken (w : List Char) : Option Int :=
  (sentiment_tokens.find? (fun p => p.1.data == w)).map (·.2)

/-- The word loop of `analyze_sentiment`: for each whitespace token, if its
cleaned form is non-empty the denominator grows by one, and if the cleaned
form is in the lexicon its score joins the numerator.  State is
`(total_score, word_count)`. -/
def sentimentWordPass : List (List Char) → Int × Nat → Int × Nat
  | [], st => st
  | w :: ws, (total, count) =>
    let clean := cleanWord w
    if clean = [] then
      sentimentWordPass ws (total, count)
    else
      match lookupToken clean with
      | some v => sentimentWordPass ws (total + v, count + 1)
      | none => sentimentWordPass ws (total, count + 1)

/-- The emoji loop of `analyze_sentiment`: each table entry found as a
substring of the *raw* text adds its score and one denominator count. -/
def sentimentEmojiPass (text : List Char) : List (String × Int) → Int × Nat → Int × Nat
  | [], st => st
  | (e, v) :: rest, (total, count) =>
    if containsSeq e.data text then
      sentimentEmojiPass text rest (total + v, count + 1)
    else
      sentimentEmojiPass text rest (total, count)

/-- `SentimentAnalyzer.analyze_sentiment` (lines 78–123): returns the pair
`(int(sentiment_score), int(normalized_score))`. -/
def analyze_sentiment (text : String) : Int × Int :=
  if text = "" then (0, 0)
  else
    let words := pySplitWS (pyLower text.data)
    let st := sentimentWordPass words (0, 0)
    let st := sentimentEmojiPass text.data emoji_sentiment st
    let score : ℚ := if st.2 > 0 then (st.1 : ℚ) / (st.2 : ℚ) else 0
    let normalized : ℚ := max (-5) (min 5 score)
    (pyInt score, pyInt normalized)

/-!
## Language complexity analyzer (`src/utils/language_complexity.py`)
-/

/-- Python `str.strip()`: drop leading and trailing whitespace. -/
def pyStrip (s : List Char) : List Char :=
  ((s.dropWhile Char.isWhitespace).reverse.dropWhile Char.isWhitespace).reverse

/-- `re.split(r'[.!?]+', text)`, followed by the source's strip-and-filter:
splitting at every `.`, `!`, `?` and keeping the stripped non-empty pieces
agrees with splitting on maximal delimiter runs, because stripping drops the
empty pieces a run produces. -/
def splitSentences (s : List Char) : List (List Char) :=
  ((s.splitOnP (fun c => c = '.' || c = '!' || c = '?')).map pyStrip).filter (· ≠ [])

/-- `LanguageComplexityAnalyzer.calculate_average_sentence_length` (lines 29–58):
integer-floor average of words per naive sentence. -/
def calculate_average_sentence_length (text : String) : Nat :=
  if text = "" then 0
  else
    let sentences := splitSentences text.data
    if sentences = [] then 0
    else
      let total_words := (sentences.map (fun s => (pySplitWS s).length)).sum
      total_words / sentences.length

/-- `LanguageComplexityAnalyzer.calculate_type_token_ratio` (lines 60–85):
unique lowercased words over total words, capped at 1. -/
def calculate_type_token_ratio (text : String) : ℚ :=
  if text = "" then 0
  else
    let words := pySplitWS (pyLower text.data)
    if words = [] then 0
    else min 1 ((words.dedup.length : ℚ) / (words.length : ℚ))

/-- The analyzer's two caller-supplied weights (floats in the source, ℚ here). -/
structure LanguageComplexityAnalyzer where
  asl_weight : ℚ
  ttr_weight : ℚ
deriving DecidableEq

/-- `LanguageComplexityAnalyzer.__init__` (lines 14–27): construction raises
`ValueError` — modelled as `none` — exactly when `abs(asl_weight + ttr_weight - 1.0) > 0.01`. -/
def LanguageComplexityAnalyzer.init (a b : ℚ) : Option LanguageComplexityAnalyzer :=
  if |a + b - 1| > 1/100 then none else some ⟨a, b⟩

/-- `LanguageComplexityAnalyzer.analyze_complexity` (lines 87–110): returns
`(asl, ttr, complexity_score)`. -/
def analyze_complexity (an : LanguageComplexityAnalyzer) (text : String) : Nat × ℚ × ℚ :=
  if text = "" then (0, 0, 0)
  else
    let asl := calculate_average_sentence_length text
    let ttr := calculate_type_token_ratio text
    let normalized_asl : ℚ := max 0 (min 1 (((asl : ℚ) - 5) / 20))
    (asl, ttr, an.asl_weight * normalized_asl + an.ttr_weight * ttr)

/-!
## Prompt manager (`src/core/prompt_manager.py`)

The five prompt templates, the three personalization-rule tables, template
selection and context composition, exactly as `PromptManager` loads them.
`str.format` with the single `personalization_context` keyword is modelled by
literal replacement of the placeholder.
-/

/-- Replace every occurrence of `needle` (assumed non-empty at call sites)
in the haystack. -/
def replaceSeq (needle repl : List Char) : List Char → List Char
  | [] => []
  | c :: rest =>
    if startsSeq needle (c :: rest) && needle ≠ [] then
      repl ++ replaceSeq needle repl (rest.drop (needle.length - 1))
    else
      c :: replaceSeq needle repl rest
termination_by l => l.length
decreasing_by
  · simp only [List.length_drop, List.length_cons]
    omega
  · simp

/-- Python `template.format(personalization_context=ctx)` for templates whose
only placeholder is `personalization_context`. -/
def pyFormat (template ctx : String) : String :=
  ⟨replaceSeq "{personalization_context}".data ctx.data template.data⟩

/-- Python `sep.join(parts)`. -/
def pyJoin (sep : String) : List String → String
  | [] => ""
  | [p] => p
  | p :: rest => p ++ sep ++ pyJoin sep rest

/-- `PromptManager._load_prompt_templates` (lines 23–31). -/
def prompt_templates (k : String) : String :=
  if k = "general" then "You are a helpful AI assistant. {personalization_context}"
  else if k = "technical" then "You are a technical AI assistant with expertise in various domains. {personalization_context}"
  else if k = "casual" then "You are a friendly and conversational AI assistant. {personalization_context}"
  else if k = "professional" then "You are a professional AI assistant focused on providing accurate and helpful information. {personalization_context}"
  else if k = "educational" then "You are an educational AI assistant designed to help users learn and understand concepts. {personalization_context}"
  else ""

/-- One entry of `personalization_rules["language_complexity"]`. -/
structure ComplexityRule where
  vocabulary_level : String
  sentence_structure : String
  technical_depth : String
  explanation_style : String

/-- One entry of `personalization_rules["response_style"]`. -/
structure StyleRule where
  tone : String
  formality : String
  interaction_style : String
  use_emojis : Bool

/-- One entry of `personalization_rules["detail_level"]`.  `include_examples`
is `False`/`"when_helpful"`/`True` in the source (a mixed-type field, never
read by the context builder); its Python value is rendered as a string here. -/
structure DetailRule where
  response_length : String
  include_examples : String
  include_context : String
  focus : String

/-- `personalization_rules["language_complexity"]` (lines 36–55); `none` is
the empty dict an unknown key yields via `.get(key, {})`. -/
def language_complexity_rules (k : String) : Option ComplexityRule :=
  if k = "simple" then some ⟨"basic", "short", "minimal", "step_by_step"⟩
  else if k = "medium" then some ⟨"standard", "balanced", "moderate", "balanced"⟩
  else if k = "complex" then some ⟨"advanced", "detailed", "comprehensive", "comprehensive"⟩
  else none

/-- `personalization_rules["response_style"]` (lines 56–81). -/
def response_style_rules (k : String) : Option StyleRule :=
  if k = "conversational" then some ⟨"friendly", "casual", "engaging", true⟩
  else if k = "balanced" then some ⟨"neutral", "moderate", "professional", false⟩
  else if k = "professional" then some ⟨"formal", "high", "business_like", false⟩
  else if k = "enthusiastic" then some ⟨"excited", "casual", "motivational", true⟩
  else none

/-- `personalization_rules["detail_level"]` (lines 82–101). -/
def detail_level_rules (k : String) : Option DetailRule :=
  if k = "concise" then some ⟨"short", "False", "minimal", "direct_answer"⟩
  else if k = "medium" then some ⟨"moderate", "when_helpful", "relevant", "balanced"⟩
  else if k = "detailed" then some ⟨"comprehensive", "True", "thorough", "complete_explanation"⟩
  else none

/-- The personalization-parameter record.  The source reads six keys from a
dict, each through `.get(key, default)`; a record field holding the default
models an absent key. -/
structure PersonalizationParams where
  language_complexity : String
  response_style : String
  detail_level : String
  user_type : String
  engagement_level : String
  sentiment_preference : String

/-- `PromptManager._create_personalization_context` (lines 131–178). -/
def create_personalization_context (params : PersonalizationParams) : String :=
  let complexity_rules := language_complexity_rules params.language_complexity
  let style_rules := response_style_rules params.response_style
  let detail_rules := detail_level_rules params.detail_level
  let base : List String :=
    ["Use " ++ ((complexity_rules.map (·.vocabulary_level)).getD "standard") ++ " vocabulary",
     "Provide " ++ ((complexity_rules.map (·.explanation_style)).getD "balanced") ++ " explanations",
     "Maintain a " ++ ((style_rules.map (·.tone)).getD "neutral") ++ " tone",
     "Use " ++ ((style_rules.map (·.formality)).getD "moderate") ++ " language",
     "Provide " ++ ((detail_rules.map (·.response_length)).getD "moderate") ++ " responses"]
  let withUser :=
    if params.user_type = "technical" then base ++ ["Include technical details and specifications when relevant"]
    else if params.user_type = "casual" then base ++ ["Keep responses friendly and approachable"]
    else if params.user_type = "professional" then base ++ ["Focus on accuracy and professional presentation"]
    else base
  let withEngagement :=
    if params.engagement_level = "high" then withUser ++ ["Encourage continued interaction and ask follow-up questions"]
    else if params.engagement_level = "low" then withUser ++ ["Provide direct, concise answers to maintain user interest"]
    else withUser
  let withSentiment :=
    if params.sentiment_preference = "positive" then withEngagement ++ ["Maintain an encouraging and positive tone"]
    else if params.sentiment_preference = "negative" then withEngagement ++ ["Be empathetic and supportive in responses"]
    else withEngagement
  pyJoin ". " withSentiment ++ "."

/-- `PromptManager._select_template` (lines 180–193). -/
def select_template (params : PersonalizationParams) : String :=
  if params.user_type = "technical" then prompt_templates "technical"
  else if params.user_type = "casual" then prompt_templates "casual"
  else if params.user_type = "professional" then prompt_templates "professional"
  else if params.user_type = "educational" then prompt_templates "educational"
  else prompt_templates "general"

/-- `PromptManager.enrich_prompt` (lines 104–129).  The `user_id` argument is
unused by the source body; it is kept for signature fidelity. -/
def enrich_prompt (base_prompt : String) (user_id : String)
    (params : PersonalizationParams) : String :=
  let personalization_context := create_personalization_context params
  let template := select_template params
  let system_prompt := pyFormat template personalization_context
  system_prompt ++ "\n\nUser: " ++ base_prompt ++ "\n\nAssistant:"

/-!
## Data model (`src/models/schemas.py`, `src/core/user_profiler.py`)

Event payloads have the fixed shapes of §6 of the HTTP layer; the source
reads each field through `dict.get(key, default)`, so a record field holding
the default models an absent key.  Session-history entries are genuine
string-keyed dicts (`PyDict`), because `update_profile_from_session` writes
the end type under the key `end_type` while the learner's
`_calculate_completion_rate` reads the key `session_end_type` — a structure
with one "end type" field could not express that.
-/

/-- The session event payload `{user_id, session_start, session_end,
session_duration, session_end_type}` plus the nested
`engagement.engagement_time`; `none` is an absent key (Python `None`). -/
structure SessionData where
  session_id : Option String
  session_start : Option Int
  session_end : Option Int
  session_duration : Option Int
  session_end_type : Option String
  engagement_time : Option Int
deriving DecidableEq

/-- A Python value stored in a session-history entry.  `pyraw` is the whole
original event payload stored under the `data` key. -/
inductive SVal where
  | pynone
  | pyint (n : Int)
  | pystr (s : String)
  | pyq (q : ℚ)
  | pyraw (d : SessionData)
deriving DecidableEq

abbrev PyDict := List (String × SVal)

/-- `d.get(k, dflt)`. -/
def pyGet (d : PyDict) (k : String) (dflt : SVal) : SVal :=
  match d.find? (fun p => p.1 == k) with
  | some p => p.2
  | none => dflt

/-- Python truthiness of an `SVal` (`pyraw` holds a non-empty dict). -/
def SVal.truthy : SVal → Bool
  | pynone => false
  | pyint n => n != 0
  | pystr s => s != ""
  | pyq q => q != 0
  | pyraw _ => true

/-- Numeric view of an `SVal`; NumPy would raise on a non-numeric value, and
every entry the claims touch is numeric. -/
def SVal.asQ : SVal → ℚ
  | pyint n => n
  | pyq q => q
  | _ => 0

def optStrS : Option String → SVal
  | some s => .pystr s
  | none => .pynone

def optIntS : Option Int → SVal
  | some n => .pyint n
  | none => .pynone

/-- The feedback event payload `{user_id, response_text, response_duration,
feedback_type, feedback_delay_duration}`; the source's `.get` defaults are
`""`, `0` and `"neutral"`. -/
structure FeedbackData where
  user_id : String
  response_text : String
  response_duration : Int
  feedback_delay_duration : Int
  feedback_type : String
deriving DecidableEq

/-- One entry of `feedback_history`.  `data` is the complete-original-event
copy that only the entry appended by `_update_personalization_from_feedback`
carries (the entry appended by `update_profile_from_feedback` has no `data`
key). -/
structure FeedbackEntry where
  ftype : String
  timestamp : Int
  response_text : String
  response_duration : Int
  feedback_delay_duration : Int
  data : Option FeedbackData
deriving DecidableEq

/-- The message event payload `{user_id, input_text, input_start_time,
input_end_time, input_sent_time}` (timestamps in ms, `.get` default 0). -/
structure PromptData where
  user_id : String
  input_text : String
  input_start_time : Int
  input_end_time : Int
  input_sent_time : Int
deriving DecidableEq

/-- The categorical outputs of `EnhancedLanguageAnalyzer.analyze_text` that
`_update_profile_from_language_analysis` consumes.  The analyzer itself is
an external collaborator (NLTK + textstat models); the profiler paths are
verified for every possible analyzer output by quantifying over a function
`String → LangAnalysis`. -/
structure LangAnalysis where
  complexity_level : String
  vocabulary_level : String
  sentiment_label : String
  enthusiasm_level : String
deriving DecidableEq

/-!
## Cross-session learner (`src/core/cross_session_learner.py`)

Each `_analyze_*` helper returns a Python dict with a fixed key set; those
are modelled as structures, `None`-like empty dicts as `Option`.
`duration_consistency` is `np.std(durations)`, an irrational square root ℚ
cannot hold; the embedding carries its square (`np.std(d)**2`, the
population variance), which determines it and which no claim reads.
`datetime.fromtimestamp` uses the host timezone; the hour bucketing is
modelled at UTC.  The learner's `pattern_cache` (a memo the profiler never
reads back for these claims) is not modelled.
-/

structure TimeBuckets where
  morning : Nat
  afternoon : Nat
  evening : Nat
  night : Nat
deriving DecidableEq

structure TimingPatterns where
  avg_session_duration : ℚ
  total_sessions : Nat
  session_frequency_per_day : ℚ
  time_preferences : TimeBuckets
  duration_consistency_sq : ℚ
deriving DecidableEq

structure EngagementPatterns where
  recent_engagement : ℚ
  engagement_trend : String
  engagement_level : String
  session_completion_rate : ℚ
deriving DecidableEq

/-- `_analyze_expertise_progression` returns either the one-key
`insufficient_data` dict or the full four-key dict. -/
inductive ExpertiseProgression where
  | insufficient
  | computed (progression : String) (early_avg_duration late_avg_duration improvement_ratio : ℚ)
deriving DecidableEq

structure CommunicationPatterns where
  preferred_complexity : String
  preferred_detail : String
  preferred_style : String
  communication_consistency : ℚ
  expertise_progression : ExpertiseProgression
  adaptability_score : ℚ
deriving DecidableEq

structure FeedbackPatterns where
  total_feedback : Nat
  positive_ratio : ℚ
  negative_ratio : ℚ
  avg_feedback_delay : ℚ
  feedback_consistency : ℚ
  improvement_pattern : String
  feedback_engagement : String
deriving DecidableEq

/-- The non-empty return value of `analyze_user_patterns`: the four pattern
groups (the `patterns` sub-dict) plus insights and recommendations. -/
structure CrossSessionResult where
  timing : Option TimingPatterns
  engagement : Option EngagementPatterns
  communication : CommunicationPatterns
  feedback : Option FeedbackPatterns
  insights : List String
  recommendations : List String
deriving DecidableEq

/-- `UserProfile` (`src/models/schemas.py`) restricted to the fields the
profiler and learner read or write.  `rl_state` is an opaque scratch map the
core never touches and is omitted.  `cross_session_insights` starts as the
empty dict (`none`) and is overwritten wholesale by the learner's result. -/
structure UserProfile where
  user_id : String
  created_at : Int
  updated_at : Int
  preferred_language_complexity : String
  preferred_detail_level : String
  preferred_response_style : String
  average_session_duration : ℚ
  average_response_time : ℚ
  average_typing_speed : ℚ
  average_sentiment_score : ℚ
  average_language_complexity : ℚ
  average_grammatical_accuracy : ℚ
  total_sessions : Nat
  average_engagement_time : ℚ
  feedback_ratio : ℚ
  positive_feedback_ratio : ℚ
  session_history : List PyDict
  feedback_history : List FeedbackEntry
  cross_session_insights : Option CrossSessionResult
deriving DecidableEq

/-- The in-memory `self.user_profiles` dict, in insertion order. -/
abbrev ProfileStore := List (String × UserProfile)

def storeFind (store : ProfileStore) (uid : String) : Option UserProfile :=
  (store.find? (fun p => p.1 == uid)).map (·.2)

/-- Python dict assignment: replace in place, or append a new key. -/
def storeInsert (store : ProfileStore) (uid : String) (p : UserProfile) : ProfileStore :=
  if (store.find? (fun q => q.1 == uid)).isSome then
    store.map (fun q => if q.1 = uid then (uid, p) else q)
  else store ++ [(uid, p)]

/-- `UserProfiler.create_user_profile` (lines 40–71): the documented default
profile. -/
def create_user_profile (uid : String) (now : Int) : UserProfile :=
  { user_id := uid
    created_at := now
    updated_at := now
    preferred_language_complexity := "medium"
    preferred_detail_level := "medium"
    preferred_response_style := "conversational"
    average_session_duration := 0
    average_response_time := 0
    average_typing_speed := 0
    average_sentiment_score := 0
    average_language_complexity := 0
    average_grammatical_accuracy := 1
    total_sessions := 0
    average_engagement_time := 0
    feedback_ratio := 0
    positive_feedback_ratio := 0
    session_history := []
    feedback_history := []
    cross_session_insights := none }

/-- `_calculate_completion_rate` (lines 247–253): fraction of session
entries whose `session_end_type` key equals `"completed"` (`dict.get`
returns `None` when the key is absent, and `None == "completed"` is false). -/
def calculate_completion_rate (sessions : List PyDict) : ℚ :=
  if sessions = [] then 0
  else
    ((sessions.filter (fun s => pyGet s "session_end_type" .pynone == .pystr "completed")).length : ℚ)
      / (sessions.length : ℚ)

/-- `[s.get('duration', 0) for s in sessions if s.get('duration')]`. -/
def sessionDurations (sessions : List PyDict) : List ℚ :=
  (sessions.filter (fun s => (pyGet s "duration" .pynone).truthy)).map
    (fun s => (pyGet s "duration" (.pyint 0)).asQ)

/-- `[s.get('duration', 0) for s in ...]` with no truthiness filter (the
engagement/expertise helpers). -/
def durationsOf (sessions : List PyDict) : List ℚ :=
  sessions.map (fun s => (pyGet s "duration" (.pyint 0)).asQ)

/-- Population variance: the square of `np.std`. -/
def npVariance (l : List ℚ) : ℚ :=
  npMean (l.map (fun x => (x - npMean l) ^ 2))

/-- The hour of a millisecond timestamp (UTC model of
`datetime.fromtimestamp(ms / 1000).hour`). -/
def hourOfMs (ms : ℚ) : Int :=
  (ms / 1000 / 3600).floor % 24

/-- The time-of-day bucket counts of `_analyze_timing_patterns`
(lines 81–96). -/
def timeBucketsOf (sessions : List PyDict) : TimeBuckets :=
  sessions.foldl
    (fun tb s =>
      let st := pyGet s "start_time" .pynone
      if st.truthy then
        let hour := hourOfMs st.asQ
        if 6 ≤ hour ∧ hour < 12 then { tb with morning := tb.morning + 1 }
        else if 12 ≤ hour ∧ hour < 17 then { tb with afternoon := tb.afternoon + 1 }
        else if 17 ≤ hour ∧ hour < 22 then { tb with evening := tb.evening + 1 }
        else { tb with night := tb.night + 1 }
      else tb)
    ⟨0, 0, 0, 0⟩

/-- `_analyze_timing_patterns` (lines 70–107). -/
def analyze_timing_patterns (now : Int) (profile : UserProfile) : Option TimingPatterns :=
  let sessions := profile.session_history
  if sessions = [] then none
  else
    let durations := sessionDurations sessions
    let days := Int.fdiv (now - profile.created_at) 86400000
    some
      { avg_session_duration := if durations = [] then 0 else npMean durations
        total_sessions := sessions.length
        session_frequency_per_day := (sessions.length : ℚ) / ((max 1 days : Int) : ℚ)
        time_preferences := timeBucketsOf sessions
        duration_consistency_sq := if durations.length > 1 then npVariance durations else 0 }

/-- The sort key `x.get('start_time', 0)`. -/
def startTimeKey (s : PyDict) : ℚ :=
  (pyGet s "start_time" (.pyint 0)).asQ

/-- Stable descending insertion (equal keys keep arrival order), matching
Python's stable `list.sort(key=..., reverse=True)`. -/
def insertDescBy (key : PyDict → ℚ) (x : PyDict) : List PyDict → List PyDict
  | [] => [x]
  | y :: rest => if key x > key y then x :: y :: rest else y :: insertDescBy key x rest

def sortDescBy (key : PyDict → ℚ) (l : List PyDict) : List PyDict :=
  l.foldl (fun acc x => insertDescBy key x acc) []

/-- `_classify_engagement_level` (lines 273–280). -/
def classify_engagement_level (avg : ℚ) : String :=
  if avg > 300000 then "high"
  else if avg > 120000 then "medium"
  else "low"

/-- `_analyze_engagement_patterns` (lines 109–140). -/
def analyze_engagement_patterns (profile : UserProfile) : Option EngagementPatterns :=
  let sessions := profile.session_history
  if sessions = [] then none
  else
    let recent_sessions := sessions.filter (fun s => (pyGet s "start_time" .pynone).truthy)
    let recent_avg_duration :=
      if recent_sessions = [] then 0
      else npMean (durationsOf ((sortDescBy startTimeKey recent_sessions).take 5))
    let engagement_trend :=
      if sessions.length > 1 then
        let early_avg := npMean (durationsOf (sessions.take (sessions.length / 2)))
        let late_avg := npMean (durationsOf (sessions.drop (sessions.length / 2)))
        if late_avg > early_avg then "increasing" else "decreasing"
      else "stable"
    some
      { recent_engagement := recent_avg_duration
        engagement_trend := engagement_trend
        engagement_level := classify_engagement_level recent_avg_duration
        session_completion_rate := calculate_completion_rate sessions }

/-- `_analyze_expertise_progression` (lines 201–226). -/
def analyze_expertise_progression (profile : UserProfile) : ExpertiseProgression :=
  let sessions := profile.session_history
  if sessions.length < 2 then .insufficient
  else
    let early_avg := npMean (durationsOf (sessions.take (sessions.length / 2)))
    let late_avg := npMean (durationsOf (sessions.drop (sessions.length / 2)))
    let progression :=
      if late_avg > early_avg * (12/10) then "improving"
      else if late_avg < early_avg * (8/10) then "declining"
      else "stable"
    .computed progression early_avg late_avg (late_avg / max early_avg 1)

/-- `_calculate_adaptability_score` (lines 255–271). -/
def calculate_adaptability_score (profile : UserProfile) : ℚ :=
  let base : ℚ := 1/2
  let withFeedback :=
    if profile.feedback_history ≠ [] then
      let pos := (profile.feedback_history.filter (fun f => f.ftype = "positive")).length
      let total := profile.feedback_history.length
      if total > 0 then base + ((pos : ℚ) / (total : ℚ)) * (3/10) else base
    else base
  let withVariety :=
    if profile.session_history.length > 1 then
      withFeedback + min (2/10) ((profile.session_history.length : ℚ) * (2/100))
    else withFeedback
  min 1 withVariety

/-- `_analyze_communication_patterns` (lines 142–168): the consistency score
adds 0.3 for `preferred_language_complexity == 'intermediate'`, 0.3 for
`preferred_detail_level == 'balanced'` and 0.4 for
`preferred_response_style == 'conversational'`. -/
def analyze_communication_patterns (profile : UserProfile) : CommunicationPatterns :=
  let consistency_score : ℚ :=
    (if profile.preferred_language_complexity = "intermediate" then 3/10 else 0)
      + (if profile.preferred_detail_level = "balanced" then 3/10 else 0)
      + (if profile.preferred_response_style = "conversational" then 2/5 else 0)
  { preferred_complexity := profile.preferred_language_complexity
    preferred_detail := profile.preferred_detail_level
    preferred_style := profile.preferred_response_style
    communication_consistency := consistency_score
    expertise_progression := analyze_expertise_progression profile
    adaptability_score := calculate_adaptability_score profile }

/-- `_analyze_feedback_improvement` (lines 228–245). -/
def analyze_feedback_improvement (fh : List FeedbackEntry) : String :=
  if fh.length < 3 then "insufficient_data"
  else
    let recent_positive := ((fh.drop (fh.length - 3)).filter (fun f => f.ftype = "positive")).length
    let early_positive := ((fh.take 3).filter (fun f => f.ftype = "positive")).length
    if recent_positive > early_positive then "improving"
    else if recent_positive < early_positive then "declining"
    else "stable"

/-- `_classify_feedback_engagement` (lines 282–296).  `np.mean` of an empty
delay list is NaN in the source and `NaN < 10000` is false, hence the
explicit non-empty conjunct. -/
def classify_feedback_engagement (fh : List FeedbackEntry) : String :=
  if fh = [] then "none"
  else
    let delays := (fh.filter (fun f => f.feedback_delay_duration ≠ 0)).map
      (fun f => (f.feedback_delay_duration : ℚ))
    if fh.length > 5 ∧ delays ≠ [] ∧ npMean delays < 10000 then "high"
    else if fh.length > 2 then "medium"
    else "low"

/-- `_analyze_feedback_patterns` (lines 170–199). -/
def analyze_feedback_patterns (profile : UserProfile) : Option FeedbackPatterns :=
  let fh := profile.feedback_history
  if fh = [] then none
  else
    let positive_ratio := ((fh.filter (fun f => f.ftype = "positive")).length : ℚ) / (fh.length : ℚ)
    let negative_ratio := ((fh.filter (fun f => f.ftype = "negative")).length : ℚ) / (fh.length : ℚ)
    let delays := (fh.filter (fun f => f.feedback_delay_duration ≠ 0)).map
      (fun f => (f.feedback_delay_duration : ℚ))
    some
      { total_feedback := fh.length
        positive_ratio := positive_ratio
        negative_ratio := negative_ratio
        avg_feedback_delay := if delays = [] then 0 else npMean delays
        feedback_consistency := 1 - |positive_ratio - negative_ratio|
        improvement_pattern := analyze_feedback_improvement fh
        feedback_engagement := classify_feedback_engagement fh }

/-- `needle in insight` on strings. -/
def containsSub (needle insight : String) : Bool :=
  containsSeq needle.data insight.data

/-- `_generate_insights` (lines 298–326). -/
def generate_insights (timing : Option TimingPatterns) (engagement : Option EngagementPatterns)
    (communication : CommunicationPatterns) (feedback : Option FeedbackPatterns) : List String :=
  let freq := (timing.map (·.session_frequency_per_day)).getD 0
  let timingIns : List String :=
    if freq > 2 then ["User is highly active with multiple daily sessions"]
    else if freq < 1/10 then ["User has infrequent usage patterns"]
    else []
  let trend := (engagement.map (·.engagement_trend)).getD ""
  let engIns : List String :=
    if trend = "increasing" then ["User engagement is improving over time"]
    else if trend = "decreasing" then ["User engagement has declined recently"]
    else []
  let commIns : List String :=
    if communication.communication_consistency > 4/5 then
      ["User has consistent communication preferences"]
    else ["User shows varied communication preferences"]
  let pr := (feedback.map (·.positive_ratio)).getD 0
  let nr := (feedback.map (·.negative_ratio)).getD 0
  let fbIns : List String :=
    if pr > 7/10 then ["User is generally satisfied with responses"]
    else if nr > 1/2 then ["User frequently provides negative feedback"]
    else []
  timingIns ++ engIns ++ commIns ++ fbIns

/-- One pass of the `_generate_recommendations` if/elif chain (lines 328–350). -/
def recommendation_for (insight : String) : List String :=
  if containsSub "highly active" insight then
    ["Consider providing more detailed responses to maintain engagement"]
  else if containsSub "infrequent usage" insight then
    ["Focus on concise, impactful responses to encourage return visits"]
  else if containsSub "engagement improving" insight then
    ["Continue current approach as it's working well"]
  else if containsSub "engagement declined" insight then
    ["Review recent interactions and adjust response strategy"]
  else if containsSub "consistent preferences" insight then
    ["Maintain current personalization approach"]
  else if containsSub "varied preferences" insight then
    ["Adapt responses dynamically based on context"]
  else if containsSub "generally satisfied" insight then
    ["Maintain current response quality and style"]
  else if containsSub "negative feedback" insight then
    ["Review and improve response accuracy and relevance"]
  else []

def generate_recommendations (insights : List String) : List String :=
  (insights.map recommendation_for).flatten

/-- `CrossSessionLearner.analyze_user_patterns` (lines 26–68): `none` is the
empty dict returned for an unknown user or an empty session history.  The
learner's internal `pattern_cache` write is not modelled. -/
def analyze_user_patterns (now : Int) (user_id : String) (profiles : ProfileStore) :
    Option CrossSessionResult :=
  match storeFind profiles user_id with
  | none => none
  | some profile =>
    if profile.session_history = [] then none
    else
      let timing := analyze_timing_patterns now profile
      let engagement := analyze_engagement_patterns profile
      let communication := analyze_communication_patterns profile
      let feedback := analyze_feedback_patterns profile
      let insights := generate_insights timing engagement communication feedback
      some
        { timing := timing
          engagement := engagement
          communication := communication
          feedback := feedback
          insights := insights
          recommendations := generate_recommendations insights }

/-!
## Profile updater (`src/core/user_profiler.py`)

The three event paths.  Persistence (`profile_persistence.save_profile`) and
the audit trail (`_record_profile_update`) only copy state to boundaries the
claims do not read and are not modelled.  `datetime.utcnow()` is the
explicit `now`.  In the source, `create_user_profile` stores the fresh
profile immediately and the event handler stores it again after mutating the
same object; the net store content is the single final write modelled here.
-/

/-- `_update_profile_from_language_analysis` (lines 155–189): map the
enhanced analysis's categorical outputs onto the three preference enums. -/
def update_profile_from_language_analysis (profile : UserProfile) (a : LangAnalysis) :
    UserProfile :=
  let p :=
    { profile with
      preferred_language_complexity :=
        if a.complexity_level = "very_easy" ∨ a.complexity_level = "easy" then "simple"
        else if a.complexity_level = "difficult" ∨ a.complexity_level = "very_difficult" then "complex"
        else "medium" }
  let p :=
    if a.vocabulary_level = "advanced" then { p with preferred_detail_level := "detailed" }
    else if a.vocabulary_level = "limited" then { p with preferred_detail_level := "concise" }
    else p
  { p with
    preferred_response_style :=
      if a.sentiment_label = "positive" ∧ a.enthusiasm_level = "high" then "enthusiastic"
      else if a.sentiment_label = "negative" then "professional"
      else "conversational" }

/-- `_update_profile_metrics` (lines 191–218): typing speed (characters per
second over a strictly positive millisecond duration, two-point average with
no zero case), the length-based detail override, and the response-time
two-point average (which does have a zero case). -/
def update_profile_metrics (profile : UserProfile) (pd : PromptData) : UserProfile :=
  let typing_duration := pd.input_end_time - pd.input_start_time
  let p :=
    if typing_duration > 0 then
      let current_avg := profile.average_typing_speed
      let message_length := pd.input_text.length
      if message_length > 0 then
        let typing_speed : ℚ := (message_length : ℚ) / ((typing_duration : ℚ) / 1000)
        { profile with average_typing_speed := (current_avg + typing_speed) / 2 }
      else profile
    else profile
  let message_length := pd.input_text.length
  let p :=
    if message_length > 100 then { p with preferred_detail_level := "detailed" }
    else if message_length < 20 then { p with preferred_detail_level := "concise" }
    else p
  if pd.input_sent_time > 0 then
    if p.average_response_time > 0 then
      { p with average_response_time := (p.average_response_time + (pd.input_sent_time : ℚ)) / 2 }
    else
      { p with average_response_time := (pd.input_sent_time : ℚ) }
  else p

/-- `_update_personalization_from_feedback` (lines 220–263): append the
entry that carries the complete original event under `data`, move the
detail level one saturating step, adjust the two ratios with their clamps. -/
def update_personalization_from_feedback (profile : UserProfile) (fd : FeedbackData)
    (now : Int) : UserProfile :=
  let entry : FeedbackEntry :=
    { ftype := fd.feedback_type
      timestamp := now
      response_text := fd.response_text
      response_duration := fd.response_duration
      feedback_delay_duration := fd.feedback_delay_duration
      data := some fd }
  let p := { profile with feedback_history := profile.feedback_history ++ [entry] }
  let p :=
    if fd.feedback_type = "positive" then
      let p :=
        if p.preferred_detail_level = "concise" then { p with preferred_detail_level := "medium" }
        else if p.preferred_detail_level = "medium" then { p with preferred_detail_level := "detailed" }
        else p
      { p with positive_feedback_ratio := min 1 (p.positive_feedback_ratio + 1/10) }
    else if fd.feedback_type = "negative" then
      let p :=
        if p.preferred_detail_level = "detailed" then { p with preferred_detail_level := "medium" }
        else if p.preferred_detail_level = "medium" then { p with preferred_detail_level := "concise" }
        else p
      { p with positive_feedback_ratio := max 0 (p.positive_feedback_ratio - 1/10) }
    else p
  { p with feedback_ratio := min 1 (p.feedback_ratio + 1/10), updated_at := now }

/-- The profile-level body of `update_profile_from_feedback` (lines
109–141): the handler's own append (no `data` key) for positive or negative
feedback, then `_update_personalization_from_feedback`, then the timestamp
refresh. -/
def feedback_event_on_profile (profile : UserProfile) (fd : FeedbackData) (now : Int) :
    UserProfile :=
  let p :=
    if fd.feedback_type = "positive" ∨ fd.feedback_type = "negative" then
      { profile with
        feedback_history := profile.feedback_history ++
          [{ ftype := fd.feedback_type
             timestamp := now
             response_text := fd.response_text
             response_duration := fd.response_duration
             feedback_delay_duration := fd.feedback_delay_duration
             data := none }] }
    else profile
  let p := update_personalization_from_feedback p fd now
  { p with updated_at := now }

/-- `_update_cross_session_learning` (lines 265–282): recompute the pattern
analysis on the whole store and, when it is non-empty (it then always has
the `insights` key), overwrite the profile's cached insights. -/
def refresh_cross_session (now : Int) (store : ProfileStore) (uid : String) : ProfileStore :=
  match analyze_user_patterns now uid store with
  | some r =>
    match storeFind store uid with
    | some p => storeInsert store uid { p with cross_session_insights := some r }
    | none => store
  | none => store

/-- `update_profile_from_prompt` (lines 77–107), store level: lazily create
the profile, run the (external) enhanced language analysis on non-empty
input text, apply the metric updates, store, refresh cross-session
insights. -/
def update_profile_from_prompt (analyzeText : String → LangAnalysis) (store : ProfileStore)
    (pd : PromptData) (now : Int) : ProfileStore :=
  let profile := (storeFind store pd.user_id).getD (create_user_profile pd.user_id now)
  let profile :=
    if pd.input_text ≠ "" then update_profile_from_language_analysis profile (analyzeText pd.input_text)
    else profile
  let profile := update_profile_metrics profile pd
  let profile := { profile with updated_at := now }
  let store := storeInsert store pd.user_id profile
  refresh_cross_session now store pd.user_id

/-- `update_profile_from_feedback` (lines 109–153), store level. -/
def update_profile_from_feedback (store : ProfileStore) (fd : FeedbackData) (now : Int) :
    ProfileStore :=
  let profile := (storeFind store fd.user_id).getD (create_user_profile fd.user_id now)
  let profile := feedback_event_on_profile profile fd now
  let store := storeInsert store fd.user_id profile
  refresh_cross_session now store fd.user_id

/-- The session-history entry built by `update_profile_from_session`
(lines 308–316): note the end type is stored under the key `end_type`. -/
def session_entry (sd : SessionData) : PyDict :=
  [("session_id", optStrS sd.session_id),
   ("start_time", optIntS sd.session_start),
   ("end_time", optIntS sd.session_end),
   ("duration", optIntS sd.session_duration),
   ("end_type", optStrS sd.session_end_type),
   ("data", SVal.pyraw sd)]

/-- `update_profile_from_session` (lines 302–354): returns `None` and
leaves the store untouched for an unknown `user_id`; otherwise appends the
session entry, bumps `total_sessions`, two-point-averages duration and
engagement time (with their zero cases), stores, refreshes cross-session
insights and returns the final profile. -/
def update_profile_from_session (store : ProfileStore) (uid : String) (sd : SessionData)
    (now : Int) : Option UserProfile × ProfileStore :=
  match storeFind store uid with
  | none => (none, store)
  | some profile =>
    let p :=
      { profile with
        session_history := profile.session_history ++ [session_entry sd]
        total_sessions := profile.total_sessions + 1 }
    let p :=
      match sd.session_duration with
      | some d =>
        if d = 0 then p
        else if p.average_session_duration > 0 then
          { p with average_session_duration := (p.average_session_duration + (d : ℚ)) / 2 }
        else
          { p with average_session_duration := (d : ℚ) }
      | none => p
    let p :=
      match sd.engagement_time with
      | some e =>
        if e = 0 then p
        else if p.average_engagement_time > 0 then
          { p with average_engagement_time := (p.average_engagement_time + (e : ℚ)) / 2 }
        else
          { p with average_engagement_time := (e : ℚ) }
      | none => p
    let p := { p with updated_at := now }
    let store := storeInsert store uid p
    let store := refresh_cross_session now store uid
    (storeFind store uid, store)

/-!
## Claim-side definitions and concrete sample inputs
-/

/-- The single saturating step along the ordered scale
concise–medium–detailed: toward "detailed" on positive feedback, toward
"concise" on negative (the spec's step relation, written out per case the
way the source's if/elif chains realize it). -/
def detailStep (ftype level : String) : String :=
  if ftype = "positive" then
    if level = "concise" then "medium"
    else if level = "medium" then "detailed"
    else level
  else if ftype = "negative" then
    if level = "detailed" then "medium"
    else if level = "medium" then "concise"
    else level
  else level

/-- A fresh default profile, used by concrete witnesses. -/
def defaultProfile : UserProfile :=
  create_user_profile "u" 0

/-- A message event: 10 characters typed in one second. -/
def pdTyping : PromptData :=
  { user_id := "u", input_text := "helloworld", input_start_time := 0,
    input_end_time := 1000, input_sent_time := 0 }

/-- A message event with empty text but positive typing duration. -/
def pdEmptyText : PromptData :=
  { user_id := "u", input_text := "", input_start_time := 0,
    input_end_time := 1000, input_sent_time := 0 }

/-- A positive feedback event. -/
def fdPositive : FeedbackData :=
  { user_id := "u", response_text := "", response_duration := 0,
    feedback_delay_duration := 0, feedback_type := "positive" }

/-- A session event whose `session_end_type` is `"completed"`. -/
def sdCompleted : SessionData :=
  { session_id := some "s1", session_start := some 1000, session_end := some 11000,
    session_duration := some 10000, session_end_type := some "completed",
    engagement_time := none }

/-- A fixed output for the external enhanced language analyzer, used by
concrete witnesses (the theorems quantify over the analyzer). -/
def constLangAnalysis : String → LangAnalysis :=
  fun _ => ⟨"standard", "medium", "neutral", "low"⟩

/-!
## Theorems

Store lemmas shared by several claims, then one theorem per claim
(with its counterexample and witness where required).
-/

set_option maxRecDepth 100000

theorem find?_replace_of_mem (store : ProfileStore) (uid : String) (p : UserProfile)
    (h : (store.find? (fun q => q.1 == uid)).isSome = true) :
    (store.map (fun q => if q.1 = uid then (uid, p) else q)).find? (fun q => q.1 == uid)
      = some (uid, p) := by
  induction store with
  | nil => simp at h
  | cons r rest ih =>
    by_cases hr : r.1 = uid
    · simp only [List.map_cons, if_pos hr]
      exact List.find?_cons_of_pos _ (by simp)
    · rw [List.find?_cons_of_neg _ (by simp [hr])] at h
      simp only [List.map_cons, if_neg hr]
      rw [List.find?_cons_of_neg _ (by simp [hr])]
      exact ih h

theorem find?_append_single (store : ProfileStore) (uid : String) (p : UserProfile)
    (h : store.find? (fun q => q.1 == uid) = none) :
    (store ++ [(uid, p)]).find? (fun q => q.1 == uid) = some (uid, p) := by
  simp [List.find?_append, h]

theorem storeFind_insert_self (store : ProfileStore) (uid : String) (p : UserProfile) :
    storeFind (storeInsert store uid p) uid = some p := by
  by_cases h : (store.find? (fun q => q.1 == uid)).isSome
  · have hfound := find?_replace_of_mem store uid p h
    unfold storeFind storeInsert
    rw [if_pos h, hfound]
    rfl
  · have hnone : store.find? (fun q => q.1 == uid) = none :=
      Option.not_isSome_iff_eq_none.mp h
    have happ := find?_append_single store uid p hnone
    unfold storeFind storeInsert
    rw [if_neg h, happ]
    rfl

theorem storeInsert_insert (store : ProfileStore) (uid : String) (p q : UserProfile) :
    storeInsert (storeInsert store uid p) uid q = storeInsert store uid q := by
  by_cases h : (store.find? (fun r => r.1 == uid)).isSome
  · have hfound := find?_replace_of_mem store uid p h
    unfold storeInsert
    rw [if_pos h, if_pos (by rw [hfound]; rfl), if_pos h, List.map_map]
    apply List.map_congr_left
    intro r _
    by_cases hr : r.1 = uid <;> simp [hr]
  · have hnone : store.find? (fun r => r.1 == uid) = none :=
      Option.not_isSome_iff_eq_none.mp h
    have happ := find?_append_single store uid p hnone
    unfold storeInsert
    rw [if_neg h, if_pos (by rw [happ]; rfl), if_neg h, List.map_append]
    rw [List.find?_eq_none] at hnone
    congr 1
    · conv_rhs => rw [show store = store.map id from (List.map_id store).symm]
      apply List.map_congr_left
      intro r hrmem
      have hne : r.1 ≠ uid := by
        have := hnone r hrmem
        simpa using this
      simp [hne]
    · simp

/-- C7: for every profile, the learner's communication-consistency score is
the fixed-weight sum of three indicator terms; the comparison values are
`"intermediate"`, `"balanced"` and `"conversational"`, so a profile at the
documented defaults (medium / medium / conversational) scores 0.4, not 1. -/
theorem C7_consistency_formula (profile : UserProfile) (uid : String) (now : Int) :
    (analyze_communication_patterns profile).communication_consistency
      = (if profile.preferred_language_complexity = "intermediate" then (3 : ℚ)/10 else 0)
        + (if profile.preferred_detail_level = "balanced" then (3 : ℚ)/10 else 0)
        + (if profile.preferred_response_style = "conversational" then (2 : ℚ)/5 else 0)
    ∧ (analyze_communication_patterns (create_user_profile uid now)).communication_consistency
        = 2/5 := by
  constructor
  · rfl
  · simp [analyze_communication_patterns, create_user_profile]

/-- C7 counterexample: the documented default profile (medium complexity,
medium detail, conversational style) scores 0.4, not the claimed 1.0. -/
theorem C7_counterexample :
    defaultProfile.preferred_language_complexity = "medium"
    ∧ defaultProfile.preferred_detail_level = "medium"
    ∧ defaultProfile.preferred_response_style = "conversational"
    ∧ (analyze_communication_patterns defaultProfile).communication_consistency = 2/5
    ∧ ((2 : ℚ)/5) ≠ 1 := by
  refine ⟨rfl, rfl, rfl, ?_, by norm_num⟩
  simp [analyze_communication_patterns, defaultProfile, create_user_profile]

/-- C8: the failing input evaluated.  A session event with
`session_end_type = "completed"` recorded by `update_profile_from_session`
is stored under the key `end_type`; `_calculate_completion_rate` reads the
key `session_end_type`, so the recorded completed session does not count and
the rate is 0 where the spec requires 1. -/
theorem C8_completion_rate_key_mismatch :
    ((update_profile_from_session [("u", defaultProfile)] "u" sdCompleted 7).1.map
        (fun p =>
          ((p.session_history.filter
              (fun s => pyGet s "end_type" .pynone == .pystr "completed")).length,
            calculate_completion_rate p.session_history,
            (analyze_engagement_patterns p).map (·.session_completion_rate))))
      = some (1, 0, some 0) := by
  with_unfolding_all rfl

/-- C10: a profile whose session history is empty yields the empty
cross-session result (`none`, the source's `{}`), whatever its feedback
history holds. -/
theorem C10_no_sessions_no_insights (now : Int) (uid : String) (profiles : ProfileStore)
    (profile : UserProfile) (hfind : storeFind profiles uid = some profile)
    (hempty : profile.session_history = []) :
    analyze_user_patterns now uid profiles = none := by
  unfold analyze_user_patterns
  rw [hfind]
  simp [hempty]

/-- C10 witness: a store whose only profile has an empty session history but
a non-empty feedback history yields the empty analysis. -/
theorem C10_witness :
    storeFind [("u", { defaultProfile with feedback_history :=
        [{ ftype := "positive", timestamp := 0, response_text := "",
           response_duration := 0, feedback_delay_duration := 0, data := none }] })] "u"
      = some ({ defaultProfile with feedback_history :=
        [{ ftype := "positive", timestamp := 0, response_text := "",
           response_duration := 0, feedback_delay_duration := 0, data := none }] })
    ∧ ({ defaultProfile with feedback_history :=
        [{ ftype := "positive", timestamp := 0, response_text := "",
           response_duration := 0, feedback_delay_duration := 0, data := none }]
        : UserProfile }).feedback_history ≠ []
    ∧ analyze_user_patterns 0 "u" [("u", { defaultProfile with feedback_history :=
        [{ ftype := "positive", timestamp := 0, response_text := "",
           response_duration := 0, feedback_delay_duration := 0, data := none }] })] = none := by
  refine ⟨by with_unfolding_all rfl, by simp, ?_⟩
  exact C10_no_sessions_no_insights 0 "u" _ _ (by with_unfolding_all rfl) (by with_unfolding_all rfl)

/-- C3 (amended): a message or feedback event whose `user_id` is unknown
behaves exactly as if a default Profile had first been created and the event
then applied (lazy creation, no error); a session-end event on an unknown
`user_id` instead returns `None` and leaves the store unchanged — it neither
creates a Profile nor applies any update. -/
theorem C3_lazy_create (analyzeText : String → LangAnalysis) (store : ProfileStore)
    (pd : PromptData) (fd : FeedbackData) (uid : String) (sd : SessionData) (now : Int) :
    (storeFind store pd.user_id = none →
      update_profile_from_prompt analyzeText store pd now
        = update_profile_from_prompt analyzeText
            (storeInsert store pd.user_id (create_user_profile pd.user_id now)) pd now)
    ∧ (storeFind store fd.user_id = none →
      update_profile_from_feedback store fd now
        = update_profile_from_feedback
            (storeInsert store fd.user_id (create_user_profile fd.user_id now)) fd now)
    ∧ (storeFind store uid = none →
      update_profile_from_session store uid sd now = (none, store)) := by
  refine ⟨fun h => ?_, fun h => ?_, fun h => ?_⟩
  · simp only [update_profile_from_prompt, h, storeFind_insert_self, Option.getD_none,
      Option.getD_some, storeInsert_insert]
  · simp only [update_profile_from_feedback, h, storeFind_insert_self, Option.getD_none,
      Option.getD_some, storeInsert_insert]
  · unfold update_profile_from_session
    rw [h]

/-- C3 counterexample: a session-end event for the unknown user `"u"` on an
empty store returns `None` and creates no profile, where the claim requires
every event kind to create a default Profile first. -/
theorem C3_counterexample :
    update_profile_from_session [] "u" sdCompleted 7 = (none, [])
    ∧ storeFind ((update_profile_from_session [] "u" sdCompleted 7).2) "u" = none := by
  exact ⟨by with_unfolding_all rfl, by with_unfolding_all rfl⟩

/-- C3 witness: the three implications discharged on an empty store with
concrete events. -/
theorem C3_witness :
    storeFind ([] : ProfileStore) "u" = none
    ∧ update_profile_from_prompt constLangAnalysis [] pdTyping 3
        = update_profile_from_prompt constLangAnalysis
            (storeInsert [] "u" (create_user_profile "u" 3)) pdTyping 3
    ∧ update_profile_from_feedback [] fdPositive 3
        = update_profile_from_feedback
            (storeInsert [] "u" (create_user_profile "u" 3)) fdPositive 3
    ∧ update_profile_from_session [] "u" sdCompleted 3 = (none, []) := by
  refine ⟨rfl, ?_, ?_, ?_⟩
  · exact (C3_lazy_create constLangAnalysis [] pdTyping fdPositive "u" sdCompleted 3).1 rfl
  · exact (C3_lazy_create constLangAnalysis [] pdTyping fdPositive "u" sdCompleted 3).2.1 rfl
  · exact (C3_lazy_create constLangAnalysis [] pdTyping fdPositive "u" sdCompleted 3).2.2 rfl

/-- C2 (amended): a positive or negative feedback event appends exactly two
entries to `feedback_history` (one from the event handler, one — carrying
the complete original event — from the personalization update), and moves
`preferred_detail_level` one saturating step along concise–medium–detailed,
toward "detailed" on positive and toward "concise" on negative feedback. -/
theorem C2_feedback_appends_two_and_steps (profile : UserProfile) (fd : FeedbackData)
    (now : Int) (h : fd.feedback_type = "positive" ∨ fd.feedback_type = "negative") :
    (feedback_event_on_profile profile fd now).feedback_history.length
        = profile.feedback_history.length + 2
    ∧ (feedback_event_on_profile profile fd now).preferred_detail_level
        = detailStep fd.feedback_type profile.preferred_detail_level := by
  unfold feedback_event_on_profile update_personalization_from_feedback detailStep
  rcases h with h | h
  · by_cases h1 : profile.preferred_detail_level = "concise"
    · simp [h, h1]
    · by_cases h2 : profile.preferred_detail_level = "medium"
      · simp [h, h1, h2]
      · simp [h, h1, h2]
  · by_cases h1 : profile.preferred_detail_level = "detailed"
    · simp [h, h1]
    · by_cases h2 : profile.preferred_detail_level = "medium"
      · simp [h, h1, h2]
      · simp [h, h1, h2]

/-- C2 counterexample: one positive feedback event on a fresh profile leaves
two entries in `feedback_history`, not the single entry the claim states. -/
theorem C2_counterexample :
    (feedback_event_on_profile defaultProfile fdPositive 5).feedback_history.length = 2
    ∧ (2 : Nat) ≠ defaultProfile.feedback_history.length + 1 := by
  exact ⟨by with_unfolding_all rfl, by with_unfolding_all decide⟩

/-- C2 witness: the amended statement at a concrete positive event. -/
theorem C2_witness :
    (fdPositive.feedback_type = "positive" ∨ fdPositive.feedback_type = "negative")
    ∧ (feedback_event_on_profile defaultProfile fdPositive 5).feedback_history.length
        = defaultProfile.feedback_history.length + 2
    ∧ (feedback_event_on_profile defaultProfile fdPositive 5).preferred_detail_level
        = detailStep fdPositive.feedback_type defaultProfile.preferred_detail_level := by
  refine ⟨Or.inl rfl, ?_⟩
  exact C2_feedback_appends_two_and_steps defaultProfile fdPositive 5 (Or.inl rfl)

theorem feedback_event_feedback_ratio (p : UserProfile) (fd : FeedbackData) (now : Int) :
    (feedback_event_on_profile p fd now).feedback_ratio
      = min 1 (p.feedback_ratio + 1/10) := by
  simp only [feedback_event_on_profile, update_personalization_from_feedback]
  split_ifs <;> rfl

theorem feedback_event_positive_ratio (p : UserProfile) (fd : FeedbackData) (now : Int) :
    (feedback_event_on_profile p fd now).positive_feedback_ratio
      = if fd.feedback_type = "positive" then min 1 (p.positive_feedback_ratio + 1/10)
        else if fd.feedback_type = "negative" then max 0 (p.positive_feedback_ratio - 1/10)
        else p.positive_feedback_ratio := by
  simp only [feedback_event_on_profile, update_personalization_from_feedback]
  split_ifs <;> rfl

theorem feedback_event_ratio_bounds (p : UserProfile) (fd : FeedbackData) (now : Int)
    (h1 : 0 ≤ p.feedback_ratio) (h2 : p.feedback_ratio ≤ 1)
    (h3 : 0 ≤ p.positive_feedback_ratio) (h4 : p.positive_feedback_ratio ≤ 1) :
    0 ≤ (feedback_event_on_profile p fd now).feedback_ratio
    ∧ (feedback_event_on_profile p fd now).feedback_ratio ≤ 1
    ∧ 0 ≤ (feedback_event_on_profile p fd now).positive_feedback_ratio
    ∧ (feedback_event_on_profile p fd now).positive_feedback_ratio ≤ 1 := by
  refine ⟨?_, ?_, ?_, ?_⟩
  · rw [feedback_event_feedback_ratio]
    exact le_min (by norm_num) (by linarith)
  · rw [feedback_event_feedback_ratio]
    exact min_le_left _ _
  · rw [feedback_event_positive_ratio]
    split_ifs
    · exact le_min (by norm_num) (by linarith)
    · exact le_max_left _ _
    · exact h3
  · rw [feedback_event_positive_ratio]
    split_ifs
    · exact min_le_left _ _
    · exact max_le (by norm_num) (by linarith)
    · exact h4

theorem foldl_feedback_ratio_bounds (l : List (FeedbackData × Int)) (p : UserProfile)
    (h1 : 0 ≤ p.feedback_ratio) (h2 : p.feedback_ratio ≤ 1)
    (h3 : 0 ≤ p.positive_feedback_ratio) (h4 : p.positive_feedback_ratio ≤ 1) :
    0 ≤ (l.foldl (fun q e => feedback_event_on_profile q e.1 e.2) p).feedback_ratio
    ∧ (l.foldl (fun q e => feedback_event_on_profile q e.1 e.2) p).feedback_ratio ≤ 1
    ∧ 0 ≤ (l.foldl (fun q e => feedback_event_on_profile q e.1 e.2) p).positive_feedback_ratio
    ∧ (l.foldl (fun q e => feedback_event_on_profile q e.1 e.2) p).positive_feedback_ratio ≤ 1 := by
  induction l generalizing p with
  | nil => exact ⟨h1, h2, h3, h4⟩
  | cons e rest ih =>
    obtain ⟨b1, b2, b3, b4⟩ := feedback_event_ratio_bounds p e.1 e.2 h1 h2 h3 h4
    exact ih _ b1 b2 b3 b4

/-- C5: starting from ratios in [0,1], after any prefix of any finite
sequence of positive/negative feedback events both `feedback_ratio` and
`positive_feedback_ratio` remain in [0,1] (each step is +0.1 clamped at 1,
respectively ±0.1 clamped to [0,1]). -/
theorem C5_ratio_invariant (profile : UserProfile) (evs : List (FeedbackData × Int))
    (h1 : 0 ≤ profile.feedback_ratio) (h2 : profile.feedback_ratio ≤ 1)
    (h3 : 0 ≤ profile.positive_feedback_ratio) (h4 : profile.positive_feedback_ratio ≤ 1)
    (hev : ∀ e ∈ evs, e.1.feedback_type = "positive" ∨ e.1.feedback_type = "negative") :
    ∀ n : Nat,
      0 ≤ ((evs.take n).foldl (fun q e => feedback_event_on_profile q e.1 e.2) profile).feedback_ratio
      ∧ ((evs.take n).foldl (fun q e => feedback_event_on_profile q e.1 e.2) profile).feedback_ratio ≤ 1
      ∧ 0 ≤ ((evs.take n).foldl (fun q e => feedback_event_on_profile q e.1 e.2) profile).positive_feedback_ratio
      ∧ ((evs.take n).foldl (fun q e => feedback_event_on_profile q e.1 e.2) profile).positive_feedback_ratio ≤ 1 :=
  fun n => foldl_feedback_ratio_bounds (evs.take n) profile h1 h2 h3 h4

/-- C5 witness: 50 consecutive positive feedback events on a fresh profile;
both ratios end exactly at 1 and stay in bounds throughout. -/
theorem C5_witness :
    ((0:ℚ) ≤ defaultProfile.feedback_ratio ∧ defaultProfile.feedback_ratio ≤ 1
      ∧ (0:ℚ) ≤ defaultProfile.positive_feedback_ratio ∧ defaultProfile.positive_feedback_ratio ≤ 1)
    ∧ (∀ e ∈ List.replicate 50 (fdPositive, (0:Int)),
        e.1.feedback_type = "positive" ∨ e.1.feedback_type = "negative")
    ∧ (0 ≤ (((List.replicate 50 (fdPositive, (0:Int))).take 50).foldl
          (fun q e => feedback_event_on_profile q e.1 e.2) defaultProfile).feedback_ratio
       ∧ (((List.replicate 50 (fdPositive, (0:Int))).take 50).foldl
          (fun q e => feedback_event_on_profile q e.1 e.2) defaultProfile).feedback_ratio ≤ 1
       ∧ 0 ≤ (((List.replicate 50 (fdPositive, (0:Int))).take 50).foldl
          (fun q e => feedback_event_on_profile q e.1 e.2) defaultProfile).positive_feedback_ratio
       ∧ (((List.replicate 50 (fdPositive, (0:Int))).take 50).foldl
          (fun q e => feedback_event_on_profile q e.1 e.2) defaultProfile).positive_feedback_ratio ≤ 1) := by
  refine ⟨⟨by norm_num [defaultProfile, create_user_profile], by norm_num [defaultProfile, create_user_profile],
    by norm_num [defaultProfile, create_user_profile], by norm_num [defaultProfile, create_user_profile]⟩,
    ?_, ?_⟩
  · intro e he
    rw [List.eq_of_mem_replicate he]
    exact Or.inl rfl
  · exact C5_ratio_invariant defaultProfile (List.replicate 50 (fdPositive, 0))
      (by norm_num [defaultProfile, create_user_profile])
      (by norm_num [defaultProfile, create_user_profile])
      (by norm_num [defaultProfile, create_user_profile])
      (by norm_num [defaultProfile, create_user_profile])
      (fun e he => Or.inl (by rw [List.eq_of_mem_replicate he]; rfl)) 50

theorem update_metrics_typing_speed (profile : UserProfile) (pd : PromptData) :
    (update_profile_metrics profile pd).average_typing_speed
      = if 0 < pd.input_end_time - pd.input_start_time ∧ 0 < pd.input_text.length then
          (profile.average_typing_speed
            + (pd.input_text.length : ℚ)
              / (((pd.input_end_time - pd.input_start_time : Int) : ℚ) / 1000)) / 2
        else profile.average_typing_speed := by
  simp only [update_profile_metrics]
  split_ifs <;> first | rfl | omega

/-- C1 (amended): on a message event the typing-speed update is skipped —
`average_typing_speed` unchanged — when `input_end_time ≤ input_start_time`
*or* the text is empty; otherwise, with `v = character_count /
elapsed_seconds ≥ 0`, the new average is `(old + v) / 2` unconditionally:
the source has no zero case for this aggregate, so an old average of 0
yields `v / 2`, not `v`. -/
theorem C1_typing_speed_averaging (profile : UserProfile) (pd : PromptData) :
    ((pd.input_end_time ≤ pd.input_start_time ∨ pd.input_text.length = 0) →
      (update_profile_metrics profile pd).average_typing_speed
        = profile.average_typing_speed)
    ∧ (pd.input_start_time < pd.input_end_time → 0 < pd.input_text.length →
      0 ≤ (pd.input_text.length : ℚ)
            / (((pd.input_end_time - pd.input_start_time : Int) : ℚ) / 1000)
      ∧ (update_profile_metrics profile pd).average_typing_speed
          = (profile.average_typing_speed
              + (pd.input_text.length : ℚ)
                / (((pd.input_end_time - pd.input_start_time : Int) : ℚ) / 1000)) / 2) := by
  constructor
  · intro h
    rw [update_metrics_typing_speed, if_neg]
    rintro ⟨hd, hl⟩
    rcases h with h | h <;> omega
  · intro hd hl
    have hdq : (0 : ℚ) < ((pd.input_end_time - pd.input_start_time : Int) : ℚ) := by
      exact_mod_cast (by omega : (0 : Int) < pd.input_end_time - pd.input_start_time)
    refine ⟨?_, ?_⟩
    · exact div_nonneg (Nat.cast_nonneg _) (le_of_lt (div_pos hdq (by norm_num)))
    · rw [update_metrics_typing_speed, if_pos ⟨by omega, hl⟩]

/-- C1 counterexample: at old average 0 with 10 characters typed in 1000 ms
(`v = 10`), the code yields 5 = (0+10)/2 where the claim's zero case
predicts 10; and at old average 4 with empty text over a positive duration,
the code leaves 4 where the claim predicts (4+0)/2 = 2. -/
theorem C1_counterexample :
    defaultProfile.average_typing_speed = 0
    ∧ (update_profile_metrics defaultProfile pdTyping).average_typing_speed = 5
    ∧ ((5 : ℚ) ≠ 10)
    ∧ ({ defaultProfile with average_typing_speed := 4 } : UserProfile).average_typing_speed = 4
    ∧ (update_profile_metrics { defaultProfile with average_typing_speed := 4 }
        pdEmptyText).average_typing_speed = 4
    ∧ ((4 : ℚ) ≠ (4 + 0) / 2) := by
  refine ⟨by with_unfolding_all rfl, by with_unfolding_all rfl, by norm_num,
    by with_unfolding_all rfl, by with_unfolding_all rfl, by norm_num⟩

/-- C1 witness: the non-skip branch at a concrete event (old average 0,
10 characters in one second). -/
theorem C1_witness :
    (pdTyping.input_start_time < pdTyping.input_end_time ∧ 0 < pdTyping.input_text.length)
    ∧ (0 ≤ (pdTyping.input_text.length : ℚ)
            / (((pdTyping.input_end_time - pdTyping.input_start_time : Int) : ℚ) / 1000)
       ∧ (update_profile_metrics defaultProfile pdTyping).average_typing_speed
          = (defaultProfile.average_typing_speed
              + (pdTyping.input_text.length : ℚ)
                / (((pdTyping.input_end_time - pdTyping.input_start_time : Int) : ℚ) / 1000)) / 2) :=
  ⟨⟨by decide, by decide⟩,
   (C1_typing_speed_averaging defaultProfile pdTyping).2 (by decide) (by decide)⟩

theorem ttr_bounds (text : String) :
    0 ≤ calculate_type_token_ratio text ∧ calculate_type_token_ratio text ≤ 1 := by
  simp only [calculate_type_token_ratio]
  by_cases h1 : text = ""
  · simp [h1]
  · rw [if_neg h1]
    by_cases hw : pySplitWS (pyLower text.data) = []
    · simp [hw]
    · rw [if_neg hw]
      refine ⟨le_min (by norm_num) (by positivity), min_le_left _ _⟩

/-- C6 (amended): construction of the complexity analyzer is rejected
exactly when `|a + b − 1| > 0.01` (a tolerance band, not exact equality);
and whenever the weights are non-negative and sum to 1, the complexity score
of every text lies in [0, 1].  (Negative weights summing to 1 pass the
constructor check and break the bound — see the counterexample.) -/
theorem C6_weights_and_range (a b : ℚ) (text : String) :
    (LanguageComplexityAnalyzer.init a b = none ↔ |a + b - 1| > 1/100)
    ∧ (0 ≤ a → 0 ≤ b → a + b = 1 →
        0 ≤ (analyze_complexity ⟨a, b⟩ text).2.2
        ∧ (analyze_complexity ⟨a, b⟩ text).2.2 ≤ 1) := by
  constructor
  · constructor
    · intro hnone
      by_contra hle
      simp only [LanguageComplexityAnalyzer.init, if_neg hle] at hnone
      exact Option.some_ne_none _ hnone
    · intro hgt
      simp only [LanguageComplexityAnalyzer.init, if_pos hgt]
  · intro ha hb hab
    unfold analyze_complexity
    split_ifs
    · norm_num
    · obtain ⟨ht0, ht1⟩ := ttr_bounds text
      dsimp only
      have hn0 : (0 : ℚ) ≤ max 0 (min 1 (((calculate_average_sentence_length text : ℚ) - 5) / 20)) :=
        le_max_left _ _
      have hn1 : max 0 (min 1 (((calculate_average_sentence_length text : ℚ) - 5) / 20)) ≤ 1 :=
        max_le (by norm_num) (min_le_left _ _)
      constructor
      · exact add_nonneg (mul_nonneg ha hn0) (mul_nonneg hb ht0)
      · calc a * max 0 (min 1 (((calculate_average_sentence_length text : ℚ) - 5) / 20))
              + b * calculate_type_token_ratio text
            ≤ a * 1 + b * 1 :=
              add_le_add (mul_le_mul_of_nonneg_left hn1 ha) (mul_le_mul_of_nonneg_left ht1 hb)
          _ = 1 := by rw [mul_one, mul_one, hab]

/-- C6 counterexample: weights (0.5, 0.505) sum to 1.005 ≠ 1 yet pass the
constructor's 0.01 tolerance; and weights (−1, 2) sum to exactly 1, pass the
check, and give the two-word text "a b" (normalized ASL 0, TTR 1) the
complexity score 2 ∉ [0,1]. -/
theorem C6_counterexample :
    ((1 : ℚ)/2 + 101/200 ≠ 1
      ∧ LanguageComplexityAnalyzer.init (1/2) (101/200) = some ⟨1/2, 101/200⟩)
    ∧ ((-1 : ℚ) + 2 = 1
      ∧ LanguageComplexityAnalyzer.init (-1) 2 = some ⟨-1, 2⟩
      ∧ (analyze_complexity ⟨-1, 2⟩ "a b").2.2 = 2
      ∧ ¬ ((analyze_complexity ⟨-1, 2⟩ "a b").2.2 ≤ 1)) := by
  refine ⟨⟨by norm_num, by with_unfolding_all rfl⟩,
    ⟨by norm_num, by with_unfolding_all rfl, by with_unfolding_all rfl, ?_⟩⟩
  rw [show (analyze_complexity ⟨-1, 2⟩ "a b").2.2 = 2 from by with_unfolding_all rfl]
  norm_num

/-- C6 witness: the in-range half at the default weights (0.5, 0.5) on a
concrete text. -/
theorem C6_witness :
    ((0 : ℚ) ≤ 1/2 ∧ (0 : ℚ) ≤ 1/2 ∧ (1 : ℚ)/2 + 1/2 = 1)
    ∧ (0 ≤ (analyze_complexity ⟨1/2, 1/2⟩ "hello there").2.2
       ∧ (analyze_complexity ⟨1/2, 1/2⟩ "hello there").2.2 ≤ 1) :=
  ⟨⟨by norm_num, by norm_num, by norm_num⟩,
   (C6_weights_and_range (1/2) (1/2) "hello there").2 (by norm_num) (by norm_num) (by norm_num)⟩

/-- C9: the enriched prompt is exactly the selected template with its
personalization clause substituted, followed by the literal suffix
`"\n\nUser: " + p + "\n\nAssistant:"`; consequently enrichment is strictly
length-increasing for every non-empty base prompt. -/
theorem C9_enrich_prompt_shape (p uid : String) (params : PersonalizationParams) :
    enrich_prompt p uid params
      = pyFormat (select_template params) (create_personalization_context params)
        ++ "\n\nUser: " ++ p ++ "\n\nAssistant:"
    ∧ (p ≠ "" → p.length < (enrich_prompt p uid params).length) := by
  constructor
  · rfl
  · intro _
    have hshape : enrich_prompt p uid params
        = pyFormat (select_template params) (create_personalization_context params)
          ++ "\n\nUser: " ++ p ++ "\n\nAssistant:" := rfl
    rw [hshape, String.length_append, String.length_append, String.length_append]
    have h8 : ("\n\nUser: " : String).length = 8 := rfl
    have h12 : ("\n\nAssistant:" : String).length = 12 := rfl
    omega

/-- C9 witness: a concrete non-empty base prompt with default parameters. -/
theorem C9_witness :
    ("hi" : String) ≠ ""
    ∧ enrich_prompt "hi" "u"
        ⟨"medium", "balanced", "medium", "general", "medium", "neutral"⟩
      = pyFormat (select_template ⟨"medium", "balanced", "medium", "general", "medium", "neutral"⟩)
          (create_personalization_context
            ⟨"medium", "balanced", "medium", "general", "medium", "neutral"⟩)
        ++ "\n\nUser: " ++ "hi" ++ "\n\nAssistant:"
    ∧ ("hi" : String).length
        < (enrich_prompt "hi" "u"
            ⟨"medium", "balanced", "medium", "general", "medium", "neutral"⟩).length := by
  refine ⟨by decide, ?_, ?_⟩
  · exact (C9_enrich_prompt_shape "hi" "u" _).1
  · exact (C9_enrich_prompt_shape "hi" "u" _).2 (by decide)

theorem sentimentWordPass_characterization (ws : List (List Char)) (total : Int) (count : Nat) :
    sentimentWordPass ws (total, count)
      = (total + ((ws.filter (fun w => cleanWord w ≠ [])).map
            (fun w => (lookupToken (cleanWord w)).getD 0)).sum,
         count + (ws.filter (fun w => cleanWord w ≠ [])).length) := by
  induction ws generalizing total count with
  | nil => simp [sentimentWordPass]
  | cons w rest ih =>
    simp only [sentimentWordPass]
    by_cases hw : cleanWord w = []
    · simp only [if_pos hw, ih, List.filter_cons]
      simp [hw]
    · cases hlook : lookupToken (cleanWord w) with
      | some v =>
        simp only [if_neg hw, hlook, ih]
        refine Prod.ext ?_ ?_ <;> simp [List.filter_cons, hw, hlook] <;> omega
      | none =>
        simp only [if_neg hw, hlook, ih]
        refine Prod.ext ?_ ?_ <;> simp [List.filter_cons, hw, hlook] <;> omega

theorem sentimentEmojiPass_characterization (text : List Char) (table : List (String × Int))
    (total : Int) (count : Nat) :
    sentimentEmojiPass text table (total, count)
      = (total + ((table.filter (fun e => containsSeq e.1.data text)).map (·.2)).sum,
         count + (table.filter (fun e => containsSeq e.1.data text)).length) := by
  induction table generalizing total count with
  | nil => simp [sentimentEmojiPass]
  | cons e rest ih =>
    simp only [sentimentEmojiPass]
    by_cases he : containsSeq e.1.data text = true
    · simp only [if_pos he, ih, List.filter_cons]
      refine Prod.ext ?_ ?_ <;> simp [he] <;> omega
    · simp only [he, if_neg, ih, List.filter_cons]
      refine Prod.ext ?_ ?_ <;> simp [he]

/-- C4 (amended): the sentiment average's denominator counts every
whitespace token whose punctuation-stripped form is non-empty — matched by
the lexicon or not — plus one for each lexicon emoji occurring in the raw
text; tokens absent from the lexicon contribute zero to the numerator but do
enlarge the denominator, so one matched word of score 3 among four unmatched
words yields `int(3/5) = 0`, not 3. -/
theorem C4_sentiment_denominator (text : String) (h : text ≠ "") :
    analyze_sentiment text
      = (let words := (pySplitWS (pyLower text.data)).filter (fun w => cleanWord w ≠ [])
         let emojis := emoji_sentiment.filter (fun e => containsSeq e.1.data text.data)
         let total := (words.map (fun w => (lookupToken (cleanWord w)).getD 0)).sum
                        + (emojis.map (·.2)).sum
         let count := words.length + emojis.length
         let score : ℚ := if 0 < count then (total : ℚ) / (count : ℚ) else 0
         (pyInt score, pyInt (max (-5) (min 5 score)))) := by
  unfold analyze_sentiment
  rw [if_neg h]
  simp only [sentimentWordPass_characterization, sentimentEmojiPass_characterization, zero_add]

/-- C4 counterexample: on "good aaa bbb ccc ddd" (one lexicon hit of score
3, four unmatched tokens) the scorer returns 0 = int(3/5), where the claim
predicts 3. -/
theorem C4_counterexample :
    (analyze_sentiment "good aaa bbb ccc ddd").1 = 0 ∧ ((0 : Int) ≠ 3) :=
  ⟨by with_unfolding_all rfl, by decide⟩

/-- C4 witness: the characterization applied to the five-token text. -/
theorem C4_witness :
    ("good aaa bbb ccc ddd" : String) ≠ ""
    ∧ analyze_sentiment "good aaa bbb ccc ddd"
      = (let words := (pySplitWS (pyLower ("good aaa bbb ccc ddd" : String).data)).filter
            (fun w => cleanWord w ≠ [])
         let emojis := emoji_sentiment.filter
            (fun e => containsSeq e.1.data ("good aaa bbb ccc ddd" : String).data)
         let total := (words.map (fun w => (lookupToken (cleanWord w)).getD 0)).sum
                        + (emojis.map (·.2)).sum
         let count := words.length + emojis.length
         let score : ℚ := if 0 < count then (total : ℚ) / (count : ℚ) else 0
         (pyInt score, pyInt (max (-5) (min 5 score)))) :=
  ⟨by decide, C4_sentiment_denominator "good aaa bbb ccc ddd" (by decide)⟩
